import Mathlib

/-!
Verification of the multi-tenant Elasticsearch client library
(billz-2/elasticsearch-cluster) against its specification.

The development shallowly embeds the core Go components as pure Lean
functions:

* JSON documents (`map[string]any` trees produced by `encoding/json`) as the
  inductive type `JSON`; Go's in-place map mutation becomes explicit
  state passing, so a mutating function returns the post-call document.
* `DetectIndexTarget` (the UUID-suffix index classifier),
  `QueryMutator.InjectCompanyFilter` and `injectIntoBool` (the tenant filter
  injection) from the query-mutator file.
* `Config.Validate` and the base-URL check of `NewRegistryFromConfig`
  (config.go, registry.go); the vendor-SDK client construction is out of
  scope and the stdlib URL parser is abstracted as a boolean predicate.
* `doJSON` (helpers.go) and the uniform status handling of the structured
  query operations `Search`/`Count`/`DeleteByQuery`/`UpdateByQuery`
  (operations.go); the HTTP response after a successful transport call is
  modelled as a status code plus the result of decoding the body.
* `Resolver.Resolve`, `fetchFromSync`, `getIndexPrefix`, `getClient` and the
  prefix-map defaulting of `NewResolver` (resolver.go); Redis and the
  metadata ("sync") service are modelled by the values the code branches on:
  the cache lookup outcome and the sync response's status and decoded body.
  The asynchronous cache write is modelled by recording which value, if any,
  the call schedules for writing.
-/

namespace Esclient

/-! ## JSON documents -/

/-- A parsed JSON value, as produced by Go's `encoding/json` into
`map[string]any` / `[]any` trees.  Objects are association lists. -/
inductive JSON where
  | null : JSON
  | boolean : Bool → JSON
  | num : Int → JSON
  | str : String → JSON
  | arr : List JSON → JSON
  | obj : List (String × JSON) → JSON

/-- A Go `map[string]any` document: the top level of a JSON object. -/
abbrev JObj := List (String × JSON)

/-- Lookup in an association list (Go map read `m[k]`). -/
def alistGet {α : Type} : List (String × α) → String → Option α
  | [], _ => none
  | (k', v) :: rest, k => if k' = k then some v else alistGet rest k

/-- Update in an association list (Go map write `m[k] = v`): replaces the
binding of `k`, leaving every other binding unchanged, appending when `k`
is absent. -/
def objSet : JObj → String → JSON → JObj
  | [], k, v => [(k, v)]
  | (k', v') :: rest, k, v =>
    if k' = k then (k, v) :: rest else (k', v') :: objSet rest k v

/-! ## Index target classifier (DetectIndexTarget) -/

/-- `IndexTarget` enum: `IndexTargetShared` / `IndexTargetPerCompany`
(the spec's `Shared` / `PerTenant`). -/
inductive IndexTarget where
  | shared
  | perCompany
deriving DecidableEq

/-- Go `strings.Split` for a one-character separator: the pieces between
occurrences of `sep`, so `n` separators yield `n + 1` pieces. -/
def splitOnChar (sep : Char) : List Char → List (List Char)
  | [] => [[]]
  | c :: cs =>
    match splitOnChar sep cs with
    | [] => [[c]]
    | r :: rs => if c = sep then [] :: r :: rs else (c :: r) :: rs

/-- Go `len` of a string: its UTF-8 byte count. -/
def utf8Len (l : List Char) : Nat := l.foldl (fun n c => n + c.utf8Size) 0

/-- `DetectIndexTarget` (query mutator file): split the index name on `_`;
when there are at least two parts and the last is 36 bytes long with exactly
four dashes (a UUID), the index is per-company, else shared. -/
def DetectIndexTarget (indexName : String) : IndexTarget :=
  let parts := splitOnChar '_' indexName.data
  if parts.length < 2 then IndexTarget.shared
  else
    let lastPart := parts.getLast?.getD []
    if utf8Len lastPart = 36 ∧ lastPart.count '-' = 4 then IndexTarget.perCompany
    else IndexTarget.shared

/-! ## Query mutator (InjectCompanyFilter) -/

/-- The mutator's error cases: `errors.New("companyID required for shared
index")` and `errors.Errorf("unexpected filter type: %T", …)`. -/
inductive MutationError where
  | tenantRequired
  | unexpectedFilterType
deriving DecidableEq

/-- The tenant-isolation predicate
`{term: {"company_id.keyword": companyID}}`. -/
def companyFilter (companyID : String) : JSON :=
  JSON.obj [("term", JSON.obj [("company_id.keyword", JSON.str companyID)])]

/-- `QueryMutator.injectIntoBool`: add `filter` to a `bool` clause map.  The
returned map is the post-call state of the Go map (unchanged when the
existing `filter` value is neither an array nor an object). -/
def injectIntoBool (boolMap : JObj) (filter : JSON) : Option MutationError × JObj :=
  match alistGet boolMap "filter" with
  | none => (none, objSet boolMap "filter" (JSON.arr [filter]))
  | some (JSON.arr f) => (none, objSet boolMap "filter" (JSON.arr (f ++ [filter])))
  | some (JSON.obj o) => (none, objSet boolMap "filter" (JSON.arr [JSON.obj o, filter]))
  | some _ => (some MutationError.unexpectedFilterType, boolMap)

/-- The body of `InjectCompanyFilter` past the target and tenant guards.
Go's `query["query"].(map[string]any)` type assertion fails both when the
key is absent and when its value is not an object, so both fall to the
overwriting branch; a present object without an object-valued `bool` key is
wrapped under `bool.must`. -/
def injectSharedBody (query : JObj) (cf : JSON) : Option MutationError × JObj :=
  match alistGet query "query" with
  | some (JSON.obj queryMap) =>
    match alistGet queryMap "bool" with
    | some (JSON.obj boolMap) =>
      match injectIntoBool boolMap cf with
      | (some e, _) => (some e, query)
      | (none, boolMap2) =>
        (none, objSet query "query" (JSON.obj (objSet queryMap "bool" (JSON.obj boolMap2))))
    | _ =>
      (none, objSet query "query" (JSON.obj
        [("bool", JSON.obj [("must", JSON.arr [JSON.obj queryMap]),
                            ("filter", JSON.arr [cf])])]))
  | _ =>
    (none, objSet query "query" (JSON.obj
      [("bool", JSON.obj [("filter", JSON.arr [cf])])]))

/-- `QueryMutator.InjectCompanyFilter`: returns the error, if any, together
with the post-call state of the caller's document. -/
def InjectCompanyFilter (query : JObj) (companyID : String) (target : IndexTarget) :
    Option MutationError × JObj :=
  if target = IndexTarget.perCompany then (none, query)
  else if companyID = "" then (some MutationError.tenantRequired, query)
  else injectSharedBody query (companyFilter companyID)

/-! ## Config validation (config.go) and registry construction (registry.go) -/

/-- `ClusterConfig` (config.go). -/
structure ClusterConfig where
  name : String
  version : Int
  addresses : List String
  username : String
  password : String

/-- `Config` (config.go); the Go `map[string]ClusterConfig` is an
association list here. -/
structure Config where
  defaultCluster : String
  clusters : List (String × ClusterConfig)

/-- The configuration error values of the library (errors file plus
`ErrInvalidBaseURL`, produced during registry construction). -/
inductive ConfigError where
  | emptyClusters
  | noDefaultCluster
  | defaultClusterNotFound
  | emptyClusterName
  | emptyAddresses (name : String)
  | invalidVersion (name : String) (version : Int)
  | invalidBaseURL (name : String) (address : String)
deriving DecidableEq

/-- The per-cluster loop of `Config.Validate`. -/
def validateClusters : List (String × ClusterConfig) → Option ConfigError
  | [] => none
  | (name, cluster) :: rest =>
    if name = "" then some ConfigError.emptyClusterName
    else if cluster.addresses.length = 0 then some (ConfigError.emptyAddresses name)
    else if cluster.version ≠ 8 ∧ cluster.version ≠ 9 then
      some (ConfigError.invalidVersion name cluster.version)
    else validateClusters rest

/-- `Config.Validate` (config.go): `none` means valid. -/
def Validate (c : Config) : Option ConfigError :=
  if c.clusters.length = 0 then some ConfigError.emptyClusters
  else if c.defaultCluster = "" then some ConfigError.noDefaultCluster
  else if (alistGet c.clusters c.defaultCluster).isNone then
    some ConfigError.defaultClusterNotFound
  else validateClusters c.clusters

/-- The base-URL check that `NewRegistryFromConfig` (registry.go) performs on
each cluster's first address after `Validate` passes.  `parseOK` abstracts
`url.Parse` succeeding with non-empty scheme and host. -/
def checkBaseURLs (parseOK : String → Bool) : List (String × ClusterConfig) → Option ConfigError
  | [] => none
  | (name, cluster) :: rest =>
    let baseURL := cluster.addresses.headD ""
    if parseOK baseURL then checkBaseURLs parseOK rest
    else some (ConfigError.invalidBaseURL name baseURL)

/-- The validation portion of `NewRegistryFromConfig` (registry.go):
`Validate` first, then the per-cluster base-URL check.  Vendor SDK client
construction is out of scope. -/
def NewRegistryFromConfigCheck (parseOK : String → Bool) (c : Config) : Option ConfigError :=
  match Validate c with
  | some e => some e
  | none => checkBaseURLs parseOK c.clusters

/-! ## Operation facade status handling (helpers.go doJSON, operations.go) -/

/-- An HTTP response after the transport call and the body read have both
succeeded: the status code, and the result of `json.Unmarshal` on the body
into the operation's typed response (`none` when the body does not decode). -/
structure WireResponse (α : Type) where
  status : Nat
  decoded : Option α

/-- The decode failure `doJSON` can report once the body has been read. -/
inductive DoJSONError where
  | decodeFailure (status : Nat)
deriving DecidableEq

/-- `doJSON` (helpers.go), for a non-nil `out`: statuses at or above 300
skip decoding and leave `out` untouched; below 300 the body is unmarshalled
into `out`, failing with a decode error when it does not parse. -/
def doJSON {α : Type} (r : WireResponse α) : Except DoJSONError (Nat × Option α) :=
  if 300 ≤ r.status then Except.ok (r.status, none)
  else
    match r.decoded with
    | some v => Except.ok (r.status, some v)
    | none => Except.error (DoJSONError.decodeFailure r.status)

/-- Errors surfaced by a structured-query operation after transport
success. -/
inductive OpError where
  | decodeError (status : Nat)
  | statusError (op : String) (status : Nat)
deriving DecidableEq

/-- The shared tail of `Search`, `Count`, `DeleteByQuery` and
`UpdateByQuery` (operations.go): run `doJSON`, then require status exactly
200, else `StatusError{Op: op, StatusCode: status}`.  `zero` is the
operation's zero-valued response struct. -/
def finishOp {α : Type} (op : String) (zero : α) (r : WireResponse α) : Except OpError α :=
  match doJSON r with
  | Except.error (DoJSONError.decodeFailure s) => Except.error (OpError.decodeError s)
  | Except.ok (status, filled) =>
    if status ≠ 200 then Except.error (OpError.statusError op status)
    else Except.ok (filled.getD zero)

/-! ## Resolver (resolver.go) -/

/-- `ClusterInfo`: routing information from the sync service. -/
structure ClusterInfo where
  clusterName : String
  clusterId : Int
  indexName : String
deriving DecidableEq

/-- The sync service's reply once the HTTP POST has returned: its status
code and the result of decoding its body as `ClusterInfo` (`none` when the
body does not decode). -/
structure SyncResponse where
  status : Nat
  decoded : Option ClusterInfo
deriving DecidableEq

/-- The failures of `fetchFromSync`. -/
inductive FetchError where
  | statusError (status : Nat)
  | decodeError
deriving DecidableEq

/-- `Resolver.fetchFromSync` (resolver.go) after the HTTP call: 400/404 mean
"not migrated" (`ok none`), other non-200 statuses fail, a 200 body that
does not decode fails, and a decoded body with empty `cluster_name` is the
same "not migrated" sentinel. -/
def fetchFromSync (resp : SyncResponse) : Except FetchError (Option ClusterInfo) :=
  if resp.status = 400 ∨ resp.status = 404 then Except.ok none
  else if resp.status ≠ 200 then Except.error (FetchError.statusError resp.status)
  else
    match resp.decoded with
    | none => Except.error FetchError.decodeError
    | some info =>
      if info.clusterName = "" then Except.ok none
      else Except.ok (some info)

/-- The resolver state relevant to routing: the precomputed per-cluster
clients (client handles are opaque numbers here), the cached default
client, and the index-prefix map. -/
structure ResolverModel where
  clients : List (String × Nat)
  defaultClient : Nat
  indexPrefixMap : List (String × String)

/-- Errors of `Resolver.Resolve`. -/
inductive ResolveError where
  | missingCompanyID
  | missingIndexType
  | syncFailed (e : FetchError)
  | clusterNotFound (name : String)
deriving DecidableEq

/-- `Resolver.getIndexPrefix` (resolver.go): the mapped prefix when the
index type is in the map, else the index type followed by `_`. -/
def indexPrefixOf (m : List (String × String)) (indexType : String) : String :=
  match alistGet m indexType with
  | some p => p
  | none => indexType ++ "_"

/-- `Resolver.getClient` (resolver.go): lookup in the precomputed client
map. -/
def getClient (r : ResolverModel) (clusterName : String) : Except ResolveError Nat :=
  match alistGet r.clients clusterName with
  | some c => Except.ok c
  | none => Except.error (ResolveError.clusterNotFound clusterName)

/-- What one `Resolve` call produces: its return value, and the
`ClusterInfo`, if any, that it schedules for the asynchronous cache
write. -/
structure ResolveOutcome where
  result : Except ResolveError (Nat × String)
  cacheWrite : Option ClusterInfo

/-- Steps 2-5 of `Resolver.Resolve` (after a cache miss): fetch from sync;
the "not migrated" sentinel falls back to the default cluster with index
name `prefix + companyID` and is not cached; a migrated result is scheduled
for the cache write and its cluster looked up in the client map. -/
def resolveViaSync (r : ResolverModel) (companyID indexType : String) (sync : SyncResponse) :
    ResolveOutcome :=
  match fetchFromSync sync with
  | Except.error e => ⟨Except.error (ResolveError.syncFailed e), none⟩
  | Except.ok none =>
    ⟨Except.ok (r.defaultClient, indexPrefixOf r.indexPrefixMap indexType ++ companyID), none⟩
  | Except.ok (some info) =>
    ⟨(getClient r info.clusterName).map (fun c => (c, info.indexName)), some info⟩

/-- `Resolver.Resolve` (resolver.go): argument guards, then the Redis cache
(`cache` is the decoded cached `ClusterInfo`, or `none` on any miss, decode
failure or Redis error); a cached entry with non-empty `cluster_name` is
returned directly and nothing is written; otherwise the sync path runs. -/
def Resolve (r : ResolverModel) (companyID indexType : String)
    (cache : Option ClusterInfo) (sync : SyncResponse) : ResolveOutcome :=
  if companyID = "" then ⟨Except.error ResolveError.missingCompanyID, none⟩
  else if indexType = "" then ⟨Except.error ResolveError.missingIndexType, none⟩
  else
    match cache with
    | some info =>
      if info.clusterName ≠ "" then
        ⟨(getClient r info.clusterName).map (fun c => (c, info.indexName)), none⟩
      else resolveViaSync r companyID indexType sync
    | none => resolveViaSync r companyID indexType sync

/-- The prefix map `NewResolver` (resolver.go) installs when the
configuration supplies none. -/
def defaultIndexPrefixMap : List (String × String) := [("product_tree", "products_")]

/-- The prefix-map defaulting in `NewResolver`: a `nil` configured map
(modelled `none`) becomes `defaultIndexPrefixMap`; a supplied map is kept
as is. -/
def resolverIndexPrefixMap : Option (List (String × String)) → List (String × String)
  | none => defaultIndexPrefixMap
  | some m => m

/-! ## Derived notions used by the statements -/

/-- The fresh `query` value installed when the document has no usable
`query` object. -/
def freshBoolQuery (cf : JSON) : JSON :=
  JSON.obj [("bool", JSON.obj [("filter", JSON.arr [cf])])]

/-- The `bool.must` wrapping of a non-`bool` query object. -/
def wrapBoolQuery (queryMap : JObj) (cf : JSON) : JSON :=
  JSON.obj [("bool", JSON.obj [("must", JSON.arr [JSON.obj queryMap]),
                               ("filter", JSON.arr [cf])])]

/-- The document contains a `bool` query whose `filter` clause is an array
containing the tenant-isolation term for `t`. -/
def companyTermPresent (doc : JObj) (t : String) : Prop :=
  ∃ qm bm F, alistGet doc "query" = some (JSON.obj qm) ∧
    alistGet qm "bool" = some (JSON.obj bm) ∧
    alistGet bm "filter" = some (JSON.arr F) ∧
    companyFilter t ∈ F

/-- The document's `query` is a `bool` whose `filter` value is neither an
array nor an object (the mutator's only data-dependent failure shape). -/
def badBoolFilter (q : JObj) : Prop :=
  ∃ qm bm fv, alistGet q "query" = some (JSON.obj qm) ∧
    alistGet qm "bool" = some (JSON.obj bm) ∧
    alistGet bm "filter" = some fv ∧
    (∀ l, fv ≠ JSON.arr l) ∧ (∀ o, fv ≠ JSON.obj o)

/-! ## Association-list lemmas -/

theorem alistGet_objSet_self (o : JObj) (k : String) (v : JSON) :
    alistGet (objSet o k v) k = some v := by
  induction o with
  | nil => simp [objSet, alistGet]
  | cons hd tl ih =>
    obtain ⟨k', v'⟩ := hd
    by_cases h : k' = k
    · simp [objSet, h, alistGet]
    · simp [objSet, h, alistGet, ih]

theorem alistGet_objSet_ne (o : JObj) (k k2 : String) (v : JSON) (h : k2 ≠ k) :
    alistGet (objSet o k v) k2 = alistGet o k2 := by
  induction o with
  | nil => simp [objSet, alistGet, Ne.symm h]
  | cons hd tl ih =>
    obtain ⟨k', v'⟩ := hd
    by_cases hk : k' = k
    · subst hk
      simp [objSet, alistGet, Ne.symm h]
    · simp [objSet, hk, alistGet, ih]

/-! ## Branch equations for the query mutator -/

theorem inject_perCompany (q : JObj) (t : String) :
    InjectCompanyFilter q t IndexTarget.perCompany = (none, q) := rfl

theorem inject_shared_emptyTenant (q : JObj) :
    InjectCompanyFilter q "" IndexTarget.shared = (some MutationError.tenantRequired, q) := rfl

theorem inject_shared_ne (q : JObj) (t : String) (ht : t ≠ "") :
    InjectCompanyFilter q t IndexTarget.shared = injectSharedBody q (companyFilter t) := by
  simp [InjectCompanyFilter, ht]

theorem injectSharedBody_noQuery (q : JObj) (cf : JSON)
    (h : alistGet q "query" = none) :
    injectSharedBody q cf = (none, objSet q "query" (freshBoolQuery cf)) := by
  simp only [injectSharedBody, h, freshBoolQuery]

theorem injectSharedBody_nonObjQuery (q : JObj) (v : JSON) (cf : JSON)
    (h : alistGet q "query" = some v) (hv : ∀ o, v ≠ JSON.obj o) :
    injectSharedBody q cf = (none, objSet q "query" (freshBoolQuery cf)) := by
  cases v with
  | obj o => exact absurd rfl (hv o)
  | null => simp only [injectSharedBody, h, freshBoolQuery]
  | boolean b => simp only [injectSharedBody, h, freshBoolQuery]
  | num n => simp only [injectSharedBody, h, freshBoolQuery]
  | str s => simp only [injectSharedBody, h, freshBoolQuery]
  | arr l => simp only [injectSharedBody, h, freshBoolQuery]

theorem injectSharedBody_noBool (q : JObj) (qm : JObj) (cf : JSON)
    (h : alistGet q "query" = some (JSON.obj qm))
    (hb : alistGet qm "bool" = none) :
    injectSharedBody q cf = (none, objSet q "query" (wrapBoolQuery qm cf)) := by
  simp only [injectSharedBody, h, hb, wrapBoolQuery]

theorem injectSharedBody_nonObjBool (q : JObj) (qm : JObj) (w : JSON) (cf : JSON)
    (h : alistGet q "query" = some (JSON.obj qm))
    (hb : alistGet qm "bool" = some w) (hw : ∀ o, w ≠ JSON.obj o) :
    injectSharedBody q cf = (none, objSet q "query" (wrapBoolQuery qm cf)) := by
  cases w with
  | obj o => exact absurd rfl (hw o)
  | null => simp only [injectSharedBody, h, hb, wrapBoolQuery]
  | boolean b => simp only [injectSharedBody, h, hb, wrapBoolQuery]
  | num n => simp only [injectSharedBody, h, hb, wrapBoolQuery]
  | str s => simp only [injectSharedBody, h, hb, wrapBoolQuery]
  | arr l => simp only [injectSharedBody, h, hb, wrapBoolQuery]

theorem injectSharedBody_bool_ok (q : JObj) (qm bm bm2 : JObj) (cf : JSON)
    (h : alistGet q "query" = some (JSON.obj qm))
    (hb : alistGet qm "bool" = some (JSON.obj bm))
    (hib : injectIntoBool bm cf = (none, bm2)) :
    injectSharedBody q cf =
      (none, objSet q "query" (JSON.obj (objSet qm "bool" (JSON.obj bm2)))) := by
  simp only [injectSharedBody, h, hb, hib]

theorem injectSharedBody_bool_err (q : JObj) (qm bm bm' : JObj) (cf : JSON)
    (e : MutationError)
    (h : alistGet q "query" = some (JSON.obj qm))
    (hb : alistGet qm "bool" = some (JSON.obj bm))
    (hib : injectIntoBool bm cf = (some e, bm')) :
    injectSharedBody q cf = (some e, q) := by
  simp only [injectSharedBody, h, hb, hib]

theorem injectIntoBool_noFilter (bm : JObj) (cf : JSON)
    (h : alistGet bm "filter" = none) :
    injectIntoBool bm cf = (none, objSet bm "filter" (JSON.arr [cf])) := by
  simp only [injectIntoBool, h]

theorem injectIntoBool_arr (bm : JObj) (F : List JSON) (cf : JSON)
    (h : alistGet bm "filter" = some (JSON.arr F)) :
    injectIntoBool bm cf = (none, objSet bm "filter" (JSON.arr (F ++ [cf]))) := by
  simp only [injectIntoBool, h]

theorem injectIntoBool_obj (bm : JObj) (O : JObj) (cf : JSON)
    (h : alistGet bm "filter" = some (JSON.obj O)) :
    injectIntoBool bm cf = (none, objSet bm "filter" (JSON.arr [JSON.obj O, cf])) := by
  simp only [injectIntoBool, h]

theorem injectIntoBool_bad (bm : JObj) (fv : JSON) (cf : JSON)
    (h : alistGet bm "filter" = some fv)
    (ha : ∀ l, fv ≠ JSON.arr l) (ho : ∀ o, fv ≠ JSON.obj o) :
    injectIntoBool bm cf = (some MutationError.unexpectedFilterType, bm) := by
  cases fv with
  | arr l => exact absurd rfl (ha l)
  | obj o => exact absurd rfl (ho o)
  | null => simp only [injectIntoBool, h]
  | boolean b => simp only [injectIntoBool, h]
  | num n => simp only [injectIntoBool, h]
  | str s => simp only [injectIntoBool, h]

/-- Every successful run of the shared-target body rewrites exactly the
`query` key, and the new `query` value is an object with a `bool` object
whose `filter` is an array containing the injected predicate. -/
theorem injectSharedBody_ok_cases (q q1 : JObj) (cf : JSON)
    (h : injectSharedBody q cf = (none, q1)) :
    ∃ qm1 bm1 F, q1 = objSet q "query" (JSON.obj qm1) ∧
      alistGet qm1 "bool" = some (JSON.obj bm1) ∧
      alistGet bm1 "filter" = some (JSON.arr F) ∧ cf ∈ F := by
  rcases hq : alistGet q "query" with _ | v
  · rw [injectSharedBody_noQuery q cf hq] at h
    refine ⟨[("bool", JSON.obj [("filter", JSON.arr [cf])])],
      [("filter", JSON.arr [cf])], [cf], ?_, rfl, rfl, by simp⟩
    exact ((Prod.mk.injEq _ _ _ _).mp h).2.symm
  · cases v with
    | null =>
      rw [injectSharedBody_nonObjQuery q _ cf hq (by intro o he; cases he)] at h
      refine ⟨[("bool", JSON.obj [("filter", JSON.arr [cf])])],
        [("filter", JSON.arr [cf])], [cf], ?_, rfl, rfl, by simp⟩
      exact ((Prod.mk.injEq _ _ _ _).mp h).2.symm
    | boolean b =>
      rw [injectSharedBody_nonObjQuery q _ cf hq (by intro o he; cases he)] at h
      refine ⟨[("bool", JSON.obj [("filter", JSON.arr [cf])])],
        [("filter", JSON.arr [cf])], [cf], ?_, rfl, rfl, by simp⟩
      exact ((Prod.mk.injEq _ _ _ _).mp h).2.symm
    | num n =>
      rw [injectSharedBody_nonObjQuery q _ cf hq (by intro o he; cases he)] at h
      refine ⟨[("bool", JSON.obj [("filter", JSON.arr [cf])])],
        [("filter", JSON.arr [cf])], [cf], ?_, rfl, rfl, by simp⟩
      exact ((Prod.mk.injEq _ _ _ _).mp h).2.symm
    | str s =>
      rw [injectSharedBody_nonObjQuery q _ cf hq (by intro o he; cases he)] at h
      refine ⟨[("bool", JSON.obj [("filter", JSON.arr [cf])])],
        [("filter", JSON.arr [cf])], [cf], ?_, rfl, rfl, by simp⟩
      exact ((Prod.mk.injEq _ _ _ _).mp h).2.symm
    | arr l =>
      rw [injectSharedBody_nonObjQuery q _ cf hq (by intro o he; cases he)] at h
      refine ⟨[("bool", JSON.obj [("filter", JSON.arr [cf])])],
        [("filter", JSON.arr [cf])], [cf], ?_, rfl, rfl, by simp⟩
      exact ((Prod.mk.injEq _ _ _ _).mp h).2.symm
    | obj qm =>
      rcases hb : alistGet qm "bool" with _ | w
      · rw [injectSharedBody_noBool q qm cf hq hb] at h
        refine ⟨[("bool", JSON.obj [("must", JSON.arr [JSON.obj qm]),
            ("filter", JSON.arr [cf])])],
          [("must", JSON.arr [JSON.obj qm]), ("filter", JSON.arr [cf])],
          [cf], ?_, rfl, rfl, by simp⟩
        exact ((Prod.mk.injEq _ _ _ _).mp h).2.symm
      · cases w with
        | null =>
          rw [injectSharedBody_nonObjBool q qm _ cf hq hb (by intro o he; cases he)] at h
          refine ⟨[("bool", JSON.obj [("must", JSON.arr [JSON.obj qm]),
              ("filter", JSON.arr [cf])])],
            [("must", JSON.arr [JSON.obj qm]), ("filter", JSON.arr [cf])],
            [cf], ?_, rfl, rfl, by simp⟩
          exact ((Prod.mk.injEq _ _ _ _).mp h).2.symm
        | boolean b =>
          rw [injectSharedBody_nonObjBool q qm _ cf hq hb (by intro o he; cases he)] at h
          refine ⟨[("bool", JSON.obj [("must", JSON.arr [JSON.obj qm]),
              ("filter", JSON.arr [cf])])],
            [("must", JSON.arr [JSON.obj qm]), ("filter", JSON.arr [cf])],
            [cf], ?_, rfl, rfl, by simp⟩
          exact ((Prod.mk.injEq _ _ _ _).mp h).2.symm
        | num n =>
          rw [injectSharedBody_nonObjBool q qm _ cf hq hb (by intro o he; cases he)] at h
          refine ⟨[("bool", JSON.obj [("must", JSON.arr [JSON.obj qm]),
              ("filter", JSON.arr [cf])])],
            [("must", JSON.arr [JSON.obj qm]), ("filter", JSON.arr [cf])],
            [cf], ?_, rfl, rfl, by simp⟩
          exact ((Prod.mk.injEq _ _ _ _).mp h).2.symm
        | str s =>
          rw [injectSharedBody_nonObjBool q qm _ cf hq hb (by intro o he; cases he)] at h
          refine ⟨[("bool", JSON.obj [("must", JSON.arr [JSON.obj qm]),
              ("filter", JSON.arr [cf])])],
            [("must", JSON.arr [JSON.obj qm]), ("filter", JSON.arr [cf])],
            [cf], ?_, rfl, rfl, by simp⟩
          exact ((Prod.mk.injEq _ _ _ _).mp h).2.symm
        | arr l =>
          rw [injectSharedBody_nonObjBool q qm _ cf hq hb (by intro o he; cases he)] at h
          refine ⟨[("bool", JSON.obj [("must", JSON.arr [JSON.obj qm]),
              ("filter", JSON.arr [cf])])],
            [("must", JSON.arr [JSON.obj qm]), ("filter", JSON.arr [cf])],
            [cf], ?_, rfl, rfl, by simp⟩
          exact ((Prod.mk.injEq _ _ _ _).mp h).2.symm
        | obj bm =>
          rcases hf : alistGet bm "filter" with _ | fv
          · rw [injectSharedBody_bool_ok q qm bm _ cf hq hb
              (injectIntoBool_noFilter bm cf hf)] at h
            refine ⟨objSet qm "bool" (JSON.obj (objSet bm "filter" (JSON.arr [cf]))),
              objSet bm "filter" (JSON.arr [cf]), [cf],
              ((Prod.mk.injEq _ _ _ _).mp h).2.symm,
              alistGet_objSet_self _ _ _, alistGet_objSet_self _ _ _, by simp⟩
          · cases fv with
            | arr F =>
              rw [injectSharedBody_bool_ok q qm bm _ cf hq hb
                (injectIntoBool_arr bm F cf hf)] at h
              refine ⟨objSet qm "bool" (JSON.obj (objSet bm "filter" (JSON.arr (F ++ [cf])))),
                objSet bm "filter" (JSON.arr (F ++ [cf])), F ++ [cf],
                ((Prod.mk.injEq _ _ _ _).mp h).2.symm,
                alistGet_objSet_self _ _ _, alistGet_objSet_self _ _ _, by simp⟩
            | obj O =>
              rw [injectSharedBody_bool_ok q qm bm _ cf hq hb
                (injectIntoBool_obj bm O cf hf)] at h
              refine ⟨objSet qm "bool" (JSON.obj (objSet bm "filter"
                  (JSON.arr [JSON.obj O, cf]))),
                objSet bm "filter" (JSON.arr [JSON.obj O, cf]), [JSON.obj O, cf],
                ((Prod.mk.injEq _ _ _ _).mp h).2.symm,
                alistGet_objSet_self _ _ _, alistGet_objSet_self _ _ _, by simp⟩
            | null =>
              rw [injectSharedBody_bool_err q qm bm bm cf _ hq hb
                (injectIntoBool_bad bm _ cf hf (by intro l he; cases he)
                  (by intro o he; cases he))] at h
              simp at h
            | boolean b =>
              rw [injectSharedBody_bool_err q qm bm bm cf _ hq hb
                (injectIntoBool_bad bm _ cf hf (by intro l he; cases he)
                  (by intro o he; cases he))] at h
              simp at h
            | num n =>
              rw [injectSharedBody_bool_err q qm bm bm cf _ hq hb
                (injectIntoBool_bad bm _ cf hf (by intro l he; cases he)
                  (by intro o he; cases he))] at h
              simp at h
            | str s =>
              rw [injectSharedBody_bool_err q qm bm bm cf _ hq hb
                (injectIntoBool_bad bm _ cf hf (by intro l he; cases he)
                  (by intro o he; cases he))] at h
              simp at h

/-- In the `bool`-query branch, a successful injection changes only the
`filter` binding of the `bool` map. -/
theorem injectSharedBody_bool_preserved (q q1 qm bm : JObj) (cf : JSON)
    (hq : alistGet q "query" = some (JSON.obj qm))
    (hb : alistGet qm "bool" = some (JSON.obj bm))
    (h : injectSharedBody q cf = (none, q1)) :
    ∃ bm2, q1 = objSet q "query" (JSON.obj (objSet qm "bool" (JSON.obj bm2))) ∧
      ∀ k, k ≠ "filter" → alistGet bm2 k = alistGet bm k := by
  rcases hf : alistGet bm "filter" with _ | fv
  · rw [injectSharedBody_bool_ok q qm bm _ cf hq hb (injectIntoBool_noFilter bm cf hf)] at h
    exact ⟨objSet bm "filter" (JSON.arr [cf]), ((Prod.mk.injEq _ _ _ _).mp h).2.symm,
      fun k hk => alistGet_objSet_ne bm "filter" k _ hk⟩
  · cases fv with
    | arr F =>
      rw [injectSharedBody_bool_ok q qm bm _ cf hq hb (injectIntoBool_arr bm F cf hf)] at h
      exact ⟨objSet bm "filter" (JSON.arr (F ++ [cf])), ((Prod.mk.injEq _ _ _ _).mp h).2.symm,
        fun k hk => alistGet_objSet_ne bm "filter" k _ hk⟩
    | obj O =>
      rw [injectSharedBody_bool_ok q qm bm _ cf hq hb (injectIntoBool_obj bm O cf hf)] at h
      exact ⟨objSet bm "filter" (JSON.arr [JSON.obj O, cf]),
        ((Prod.mk.injEq _ _ _ _).mp h).2.symm,
        fun k hk => alistGet_objSet_ne bm "filter" k _ hk⟩
    | null =>
      rw [injectSharedBody_bool_err q qm bm bm cf _ hq hb
        (injectIntoBool_bad bm _ cf hf (by intro l he; cases he) (by intro o he; cases he))] at h
      simp at h
    | boolean b =>
      rw [injectSharedBody_bool_err q qm bm bm cf _ hq hb
        (injectIntoBool_bad bm _ cf hf (by intro l he; cases he) (by intro o he; cases he))] at h
      simp at h
    | num n =>
      rw [injectSharedBody_bool_err q qm bm bm cf _ hq hb
        (injectIntoBool_bad bm _ cf hf (by intro l he; cases he) (by intro o he; cases he))] at h
      simp at h
    | str s =>
      rw [injectSharedBody_bool_err q qm bm bm cf _ hq hb
        (injectIntoBool_bad bm _ cf hf (by intro l he; cases he) (by intro o he; cases he))] at h
      simp at h

/-- A bad `bool.filter` value makes the shared-target body fail with
`unexpectedFilterType`, leaving the document unchanged. -/
theorem injectSharedBody_err_of_bad (q : JObj) (cf : JSON) (h : badBoolFilter q) :
    injectSharedBody q cf = (some MutationError.unexpectedFilterType, q) := by
  obtain ⟨qm, bm, fv, hq, hb, hf, ha, ho⟩ := h
  exact injectSharedBody_bool_err q qm bm bm cf _ hq hb (injectIntoBool_bad bm fv cf hf ha ho)

/-- The shared-target body either succeeds or the document has a bad
`bool.filter` value. -/
theorem injectSharedBody_total (q : JObj) (cf : JSON) :
    (∃ q1, injectSharedBody q cf = (none, q1)) ∨ badBoolFilter q := by
  rcases hq : alistGet q "query" with _ | v
  · exact Or.inl ⟨_, injectSharedBody_noQuery q cf hq⟩
  · cases v with
    | null => exact Or.inl ⟨_, injectSharedBody_nonObjQuery q _ cf hq (by intro o he; cases he)⟩
    | boolean b =>
      exact Or.inl ⟨_, injectSharedBody_nonObjQuery q _ cf hq (by intro o he; cases he)⟩
    | num n => exact Or.inl ⟨_, injectSharedBody_nonObjQuery q _ cf hq (by intro o he; cases he)⟩
    | str s => exact Or.inl ⟨_, injectSharedBody_nonObjQuery q _ cf hq (by intro o he; cases he)⟩
    | arr l => exact Or.inl ⟨_, injectSharedBody_nonObjQuery q _ cf hq (by intro o he; cases he)⟩
    | obj qm =>
      rcases hb : alistGet qm "bool" with _ | w
      · exact Or.inl ⟨_, injectSharedBody_noBool q qm cf hq hb⟩
      · cases w with
        | null =>
          exact Or.inl ⟨_, injectSharedBody_nonObjBool q qm _ cf hq hb (by intro o he; cases he)⟩
        | boolean b =>
          exact Or.inl ⟨_, injectSharedBody_nonObjBool q qm _ cf hq hb (by intro o he; cases he)⟩
        | num n =>
          exact Or.inl ⟨_, injectSharedBody_nonObjBool q qm _ cf hq hb (by intro o he; cases he)⟩
        | str s =>
          exact Or.inl ⟨_, injectSharedBody_nonObjBool q qm _ cf hq hb (by intro o he; cases he)⟩
        | arr l =>
          exact Or.inl ⟨_, injectSharedBody_nonObjBool q qm _ cf hq hb (by intro o he; cases he)⟩
        | obj bm =>
          rcases hf : alistGet bm "filter" with _ | fv
          · exact Or.inl ⟨_, injectSharedBody_bool_ok q qm bm _ cf hq hb
              (injectIntoBool_noFilter bm cf hf)⟩
          · cases fv with
            | arr F => exact Or.inl ⟨_, injectSharedBody_bool_ok q qm bm _ cf hq hb
                (injectIntoBool_arr bm F cf hf)⟩
            | obj O => exact Or.inl ⟨_, injectSharedBody_bool_ok q qm bm _ cf hq hb
                (injectIntoBool_obj bm O cf hf)⟩
            | null =>
              refine Or.inr ⟨qm, bm, _, hq, hb, hf, ?_, ?_⟩
              · intro l he; cases he
              · intro o he; cases he
            | boolean b =>
              refine Or.inr ⟨qm, bm, _, hq, hb, hf, ?_, ?_⟩
              · intro l he; cases he
              · intro o he; cases he
            | num n =>
              refine Or.inr ⟨qm, bm, _, hq, hb, hf, ?_, ?_⟩
              · intro l he; cases he
              · intro o he; cases he
            | str s =>
              refine Or.inr ⟨qm, bm, _, hq, hb, hf, ?_, ?_⟩
              · intro l he; cases he
              · intro o he; cases he

/-! ## Claim theorems -/

/-- C1: for a Shared target and non-empty tenant, `InjectCompanyFilter`
succeeds and transforms the document case by case: a missing `query` key
gets a fresh `bool.filter` query; a `bool` without `filter` gets
`filter = [companyFilter]`; a `bool` with array filter gets the predicate
appended; a `bool` with a single object filter gets the array
`[O, companyFilter]`; every successful run leaves a `bool` query whose
`filter` array contains the tenant term, preserves all siblings of `query`,
and in the `bool` cases preserves every other `bool` clause. -/
theorem c1_inject_shared_cases (q : JObj) (t : String) (ht : t ≠ "") :
    (alistGet q "query" = none →
      InjectCompanyFilter q t IndexTarget.shared =
        (none, objSet q "query" (freshBoolQuery (companyFilter t)))) ∧
    (∀ qm bm, alistGet q "query" = some (JSON.obj qm) →
      alistGet qm "bool" = some (JSON.obj bm) →
      (alistGet bm "filter" = none →
        InjectCompanyFilter q t IndexTarget.shared =
          (none, objSet q "query" (JSON.obj (objSet qm "bool"
            (JSON.obj (objSet bm "filter" (JSON.arr [companyFilter t]))))))) ∧
      (∀ F, alistGet bm "filter" = some (JSON.arr F) →
        InjectCompanyFilter q t IndexTarget.shared =
          (none, objSet q "query" (JSON.obj (objSet qm "bool"
            (JSON.obj (objSet bm "filter" (JSON.arr (F ++ [companyFilter t])))))))) ∧
      (∀ O, alistGet bm "filter" = some (JSON.obj O) →
        InjectCompanyFilter q t IndexTarget.shared =
          (none, objSet q "query" (JSON.obj (objSet qm "bool"
            (JSON.obj (objSet bm "filter" (JSON.arr [JSON.obj O, companyFilter t])))))))) ∧
    (∀ q1, InjectCompanyFilter q t IndexTarget.shared = (none, q1) →
      companyTermPresent q1 t ∧ ∀ k, k ≠ "query" → alistGet q1 k = alistGet q k) ∧
    (∀ qm bm q1, alistGet q "query" = some (JSON.obj qm) →
      alistGet qm "bool" = some (JSON.obj bm) →
      InjectCompanyFilter q t IndexTarget.shared = (none, q1) →
      ∃ bm2, q1 = objSet q "query" (JSON.obj (objSet qm "bool" (JSON.obj bm2))) ∧
        ∀ k, k ≠ "filter" → alistGet bm2 k = alistGet bm k) := by
  refine ⟨?_, ?_, ?_, ?_⟩
  · intro hq
    rw [inject_shared_ne q t ht, injectSharedBody_noQuery q _ hq]
  · intro qm bm hq hb
    refine ⟨?_, ?_, ?_⟩
    · intro hf
      rw [inject_shared_ne q t ht,
        injectSharedBody_bool_ok q qm bm _ _ hq hb (injectIntoBool_noFilter bm _ hf)]
    · intro F hf
      rw [inject_shared_ne q t ht,
        injectSharedBody_bool_ok q qm bm _ _ hq hb (injectIntoBool_arr bm F _ hf)]
    · intro O hf
      rw [inject_shared_ne q t ht,
        injectSharedBody_bool_ok q qm bm _ _ hq hb (injectIntoBool_obj bm O _ hf)]
  · intro q1 h
    rw [inject_shared_ne q t ht] at h
    obtain ⟨qm1, bm1, F, hq1, hbm, hfl, hmem⟩ := injectSharedBody_ok_cases q q1 _ h
    subst hq1
    exact ⟨⟨qm1, bm1, F, alistGet_objSet_self _ _ _, hbm, hfl, hmem⟩,
      fun k hk => alistGet_objSet_ne q "query" k _ hk⟩
  · intro qm bm q1 hq hb h
    rw [inject_shared_ne q t ht] at h
    exact injectSharedBody_bool_preserved q q1 qm bm _ hq hb h

/-- Witness for C1 at the empty document and tenant `c1`. -/
theorem c1_inject_shared_cases_witness :
    InjectCompanyFilter ([] : JObj) "c1" IndexTarget.shared =
      (none, objSet [] "query" (freshBoolQuery (companyFilter "c1"))) :=
  (c1_inject_shared_cases [] "c1" (by decide)).1 rfl

/-- C5: `InjectCompanyFilter` fails exactly when (Shared, empty tenant):
`tenantRequired`, or (Shared, non-empty tenant, `bool` query whose `filter`
is neither array nor object): `unexpectedFilterType`; on every error the
document is unchanged, and in every other case it returns ok. -/
theorem c5_error_cases (q : JObj) (t : String) (tgt : IndexTarget) :
    ((InjectCompanyFilter q t tgt).1 = some MutationError.tenantRequired ↔
      tgt = IndexTarget.shared ∧ t = "") ∧
    ((InjectCompanyFilter q t tgt).1 = some MutationError.unexpectedFilterType ↔
      tgt = IndexTarget.shared ∧ t ≠ "" ∧ badBoolFilter q) ∧
    (∀ e, (InjectCompanyFilter q t tgt).1 = some e →
      (InjectCompanyFilter q t tgt).2 = q) ∧
    ((tgt = IndexTarget.perCompany ∨ (t ≠ "" ∧ ¬ badBoolFilter q)) →
      (InjectCompanyFilter q t tgt).1 = none) := by
  cases tgt with
  | perCompany =>
    rw [inject_perCompany]
    exact ⟨by simp, by simp, by simp, fun _ => rfl⟩
  | shared =>
    by_cases ht : t = ""
    · subst ht
      rw [inject_shared_emptyTenant]
      refine ⟨by simp, by simp, fun e _ => rfl, ?_⟩
      rintro (h | ⟨h, -⟩)
      · cases h
      · exact absurd rfl h
    · rw [inject_shared_ne q t ht]
      rcases injectSharedBody_total q (companyFilter t) with ⟨q1, hok⟩ | hbad
      · have hnb : ¬ badBoolFilter q := by
          intro hb
          rw [injectSharedBody_err_of_bad q _ hb] at hok
          simp at hok
        rw [hok]
        exact ⟨by simp [ht], by simp [hnb], by simp, fun _ => rfl⟩
      · rw [injectSharedBody_err_of_bad q _ hbad]
        refine ⟨by simp [ht], by simp [ht, hbad], fun e _ => rfl, ?_⟩
        rintro (h | ⟨-, hnb⟩)
        · cases h
        · exact absurd hbad hnb

/-- Witness for C5: the empty-tenant error leaves the document unchanged. -/
theorem c5_error_cases_witness :
    (InjectCompanyFilter ([] : JObj) "" IndexTarget.shared).2 = [] :=
  (c5_error_cases [] "" IndexTarget.shared).2.2.1 MutationError.tenantRequired rfl

/-- C7: with a PerTenant target, `InjectCompanyFilter` returns ok for every
document and tenant (the empty tenant included) and is the identity on the
document. -/
theorem c7_perTenant_identity (q : JObj) (t : String) :
    InjectCompanyFilter q t IndexTarget.perCompany = (none, q) := rfl

/-- C9: after a successful shared-target injection, injecting again with the
same non-empty tenant succeeds and appends the same term once more, so the
final `bool.filter` array contains the tenant term twice — it is never
deduplicated. -/
theorem c9_inject_append_not_dedup (q q1 : JObj) (t : String) (ht : t ≠ "")
    (h : InjectCompanyFilter q t IndexTarget.shared = (none, q1)) :
    ∃ q2, InjectCompanyFilter q1 t IndexTarget.shared = (none, q2) ∧
      ∃ qm bm F, alistGet q2 "query" = some (JSON.obj qm) ∧
        alistGet qm "bool" = some (JSON.obj bm) ∧
        alistGet bm "filter" = some (JSON.arr (F ++ [companyFilter t])) ∧
        companyFilter t ∈ F := by
  rw [inject_shared_ne q t ht] at h
  obtain ⟨qm1, bm1, F, hq1, hbm, hfl, hmem⟩ := injectSharedBody_ok_cases q q1 _ h
  have hq1get : alistGet q1 "query" = some (JSON.obj qm1) := by
    subst hq1; exact alistGet_objSet_self _ _ _
  rw [inject_shared_ne q1 t ht,
    injectSharedBody_bool_ok q1 qm1 bm1 _ _ hq1get hbm (injectIntoBool_arr bm1 F _ hfl)]
  exact ⟨_, rfl,
    objSet qm1 "bool" (JSON.obj (objSet bm1 "filter" (JSON.arr (F ++ [companyFilter t])))),
    objSet bm1 "filter" (JSON.arr (F ++ [companyFilter t])), F,
    alistGet_objSet_self _ _ _, alistGet_objSet_self _ _ _,
    alistGet_objSet_self _ _ _, hmem⟩

/-- Witness for C9: a second injection on the output of a first one. -/
theorem c9_inject_append_not_dedup_witness :
    ∃ q2, InjectCompanyFilter [("query", freshBoolQuery (companyFilter "c"))] "c"
        IndexTarget.shared = (none, q2) ∧
      ∃ qm bm F, alistGet q2 "query" = some (JSON.obj qm) ∧
        alistGet qm "bool" = some (JSON.obj bm) ∧
        alistGet bm "filter" = some (JSON.arr (F ++ [companyFilter "c"])) ∧
        companyFilter "c" ∈ F :=
  c9_inject_append_not_dedup [] _ "c" (by decide) rfl

/-- C2 counterexample: with `query` bound to the string `"x"`, the code does
not wrap the old value under `bool.must` — the failed type assertion routes
it to the overwriting branch, so the original query value is discarded. -/
theorem c2_counterexample :
    InjectCompanyFilter [("query", JSON.str "x")] "c" IndexTarget.shared =
      (none, [("query", JSON.obj [("bool",
        JSON.obj [("filter", JSON.arr [companyFilter "c"])])])]) ∧
    InjectCompanyFilter [("query", JSON.str "x")] "c" IndexTarget.shared ≠
      (none, [("query", JSON.obj [("bool",
        JSON.obj [("must", JSON.arr [JSON.str "x"]),
                  ("filter", JSON.arr [companyFilter "c"])])])]) := by
  refine ⟨rfl, ?_⟩
  intro h
  have h0 : InjectCompanyFilter [("query", JSON.str "x")] "c" IndexTarget.shared =
      (none, [("query", JSON.obj [("bool",
        JSON.obj [("filter", JSON.arr [companyFilter "c"])])])]) := rfl
  rw [h0] at h
  simp [companyFilter] at h

/-- C2 (amended): for a Shared target and non-empty tenant, only an
object-valued `query` without an object-valued `bool` key is wrapped as
`{bool: {must: [Q], filter: [companyFilter]}}`; a non-object `query` value
(string, number, array, boolean, null) is discarded and replaced by
`{bool: {filter: [companyFilter]}}`. -/
theorem c2_nonbool_wrap_amended (q : JObj) (t : String) (ht : t ≠ "") :
    (∀ qm, alistGet q "query" = some (JSON.obj qm) →
      (∀ bm, alistGet qm "bool" ≠ some (JSON.obj bm)) →
      InjectCompanyFilter q t IndexTarget.shared =
        (none, objSet q "query" (wrapBoolQuery qm (companyFilter t)))) ∧
    (∀ v, alistGet q "query" = some v → (∀ o, v ≠ JSON.obj o) →
      InjectCompanyFilter q t IndexTarget.shared =
        (none, objSet q "query" (freshBoolQuery (companyFilter t)))) := by
  constructor
  · intro qm hq hb
    rw [inject_shared_ne q t ht]
    rcases hw : alistGet qm "bool" with _ | w
    · exact injectSharedBody_noBool q qm _ hq hw
    · cases w with
      | obj bm => exact absurd hw (hb bm)
      | null => exact injectSharedBody_nonObjBool q qm _ _ hq hw (by intro o he; cases he)
      | boolean b => exact injectSharedBody_nonObjBool q qm _ _ hq hw (by intro o he; cases he)
      | num n => exact injectSharedBody_nonObjBool q qm _ _ hq hw (by intro o he; cases he)
      | str s => exact injectSharedBody_nonObjBool q qm _ _ hq hw (by intro o he; cases he)
      | arr l => exact injectSharedBody_nonObjBool q qm _ _ hq hw (by intro o he; cases he)
  · intro v hq hv
    rw [inject_shared_ne q t ht]
    exact injectSharedBody_nonObjQuery q v _ hq hv

/-- Witness for the amended C2: the spec's S3 scenario (`match_all` wrapped
under `bool.must` for tenant `c3`). -/
theorem c2_nonbool_wrap_amended_witness :
    InjectCompanyFilter [("query", JSON.obj [("match_all", JSON.obj [])])] "c3"
        IndexTarget.shared =
      (none, objSet [("query", JSON.obj [("match_all", JSON.obj [])])] "query"
        (wrapBoolQuery [("match_all", JSON.obj [])] (companyFilter "c3"))) :=
  (c2_nonbool_wrap_amended [("query", JSON.obj [("match_all", JSON.obj [])])] "c3"
      (by decide)).1
    [("match_all", JSON.obj [])] rfl (fun bm h => by simp [alistGet] at h)

/-- C3: on a cache miss, a sync response of 400, 404 or 200 with empty
`cluster_name` makes `Resolve` return the default cluster's client with
index name `indexPrefix(kind) + tenant` and schedule no cache write; the
prefix is the mapped one when present, else `kind + "_"`. -/
theorem c3_resolve_fallback (r : ResolverModel) (tenant kind : String)
    (cache : Option ClusterInfo) (sync : SyncResponse)
    (htenant : tenant ≠ "") (hkind : kind ≠ "")
    (hcache : ∀ info, cache = some info → info.clusterName = "")
    (hsync : sync.status = 400 ∨ sync.status = 404 ∨
      (sync.status = 200 ∧ ∃ i, sync.decoded = some i ∧ i.clusterName = "")) :
    Resolve r tenant kind cache sync =
      ⟨Except.ok (r.defaultClient, indexPrefixOf r.indexPrefixMap kind ++ tenant), none⟩ ∧
    (∀ p, alistGet r.indexPrefixMap kind = some p → indexPrefixOf r.indexPrefixMap kind = p) ∧
    (alistGet r.indexPrefixMap kind = none →
      indexPrefixOf r.indexPrefixMap kind = kind ++ "_") := by
  have hfetch : fetchFromSync sync = Except.ok none := by
    rcases hsync with h | h | ⟨h200, i, hdec, hname⟩
    · simp [fetchFromSync, h]
    · simp [fetchFromSync, h]
    · simp [fetchFromSync, h200, hdec, hname]
  have hvia : resolveViaSync r tenant kind sync =
      ⟨Except.ok (r.defaultClient, indexPrefixOf r.indexPrefixMap kind ++ tenant), none⟩ := by
    simp [resolveViaSync, hfetch]
  refine ⟨?_, fun p hp => by simp [indexPrefixOf, hp], fun hn => by simp [indexPrefixOf, hn]⟩
  cases cache with
  | none => simpa [Resolve, htenant, hkind] using hvia
  | some info =>
    have hempty : info.clusterName = "" := hcache info rfl
    simpa [Resolve, htenant, hkind, hempty] using hvia

/-- Witness for C3 at a one-cluster resolver, sync status 404. -/
theorem c3_resolve_fallback_witness :
    Resolve ⟨[("default", 0)], 0, []⟩ "t1" "order" none ⟨404, none⟩ =
      ⟨Except.ok (0, "order_t1"), none⟩ ∧
    (∀ p, alistGet ([] : List (String × String)) "order" = some p →
      indexPrefixOf [] "order" = p) ∧
    (alistGet ([] : List (String × String)) "order" = none →
      indexPrefixOf [] "order" = "order" ++ "_") :=
  c3_resolve_fallback ⟨[("default", 0)], 0, []⟩ "t1" "order" none ⟨404, none⟩
    (by decide) (by decide) (fun info h => by cases h) (Or.inr (Or.inl rfl))

/-- C4: the classifier is pure and total; it answers PerTenant exactly when
the `_`-split has at least two parts and the last part is 36 bytes long
with exactly four dashes, with the five pinned example classifications. -/
theorem c4_classifier_rule :
    (∀ s : String,
      DetectIndexTarget s = IndexTarget.perCompany ↔
        2 ≤ (splitOnChar '_' s.data).length ∧
        utf8Len ((splitOnChar '_' s.data).getLast?.getD []) = 36 ∧
        ((splitOnChar '_' s.data).getLast?.getD []).count '-' = 4) ∧
    DetectIndexTarget "products_01234567-89ab-cdef-0123-456789abcdef" =
      IndexTarget.perCompany ∧
    DetectIndexTarget "products_shared" = IndexTarget.shared ∧
    DetectIndexTarget "products_tier_gold" = IndexTarget.shared ∧
    DetectIndexTarget "orders" = IndexTarget.shared ∧
    DetectIndexTarget "orders_v2_abcd1234-5678-90ab-cdef-123456789012" =
      IndexTarget.perCompany := by
  refine ⟨?_, by decide, by decide, by decide, by decide, by decide⟩
  intro s
  by_cases h1 : (splitOnChar '_' s.data).length < 2
  · have hd : DetectIndexTarget s = IndexTarget.shared := by
      unfold DetectIndexTarget
      simp [h1]
    rw [hd]
    constructor
    · intro h; exact absurd h (by decide)
    · rintro ⟨h2, -⟩; exact absurd h1 (by omega)
  · by_cases h2 : utf8Len ((splitOnChar '_' s.data).getLast?.getD []) = 36 ∧
        ((splitOnChar '_' s.data).getLast?.getD []).count '-' = 4
    · have hd : DetectIndexTarget s = IndexTarget.perCompany := by
        unfold DetectIndexTarget
        simp [h1, h2.1, h2.2]
      rw [hd]
      constructor
      · intro _; exact ⟨by omega, h2.1, h2.2⟩
      · intro _; rfl
    · have hd : DetectIndexTarget s = IndexTarget.shared := by
        unfold DetectIndexTarget
        simp [h1, h2]
      rw [hd]
      constructor
      · intro h; exact absurd h (by decide)
      · rintro ⟨-, hb, hc⟩; exact absurd ⟨hb, hc⟩ h2

/-- C6 counterexample: a 201 response with a decodable body is not returned
as the decoded response — the operations require status exactly 200 and
return `StatusError` for 201. -/
theorem c6_counterexample :
    finishOp "search" (0 : Nat) ⟨201, some 7⟩ =
      Except.error (OpError.statusError "search" 201) ∧
    Except.error (OpError.statusError "search" 201) ≠ (Except.ok 7 : Except OpError Nat) := by
  refine ⟨rfl, ?_⟩
  intro h
  cases h

/-- C6 (amended): after transport success the operations decode the body
for every status below 300 (a non-decoding body gives a decode error);
they succeed only on status exactly 200, returning the decoded response,
and return `StatusError(op, status)` for every other status; for statuses
at or above 300 no decode is attempted. -/
theorem c6_status_amended {α : Type} (op : String) (zero : α) (r : WireResponse α) :
    (r.status = 200 → ∀ v, r.decoded = some v → finishOp op zero r = Except.ok v) ∧
    (300 ≤ r.status → finishOp op zero r = Except.error (OpError.statusError op r.status) ∧
      doJSON r = Except.ok (r.status, none)) ∧
    (r.status < 300 → r.status ≠ 200 → ∀ v, r.decoded = some v →
      finishOp op zero r = Except.error (OpError.statusError op r.status)) ∧
    (r.status < 300 → r.decoded = none →
      finishOp op zero r = Except.error (OpError.decodeError r.status)) := by
  refine ⟨?_, ?_, ?_, ?_⟩
  · intro h200 v hv
    have hlt : ¬ 300 ≤ r.status := by omega
    have hd : doJSON r = Except.ok (r.status, some v) := by simp [doJSON, hv, hlt]
    simp [finishOp, hd, h200]
  · intro h300
    have hd : doJSON r = Except.ok (r.status, none) := by simp [doJSON, h300]
    have hne : r.status ≠ 200 := by omega
    exact ⟨by simp [finishOp, hd, hne], hd⟩
  · intro hlt hne v hv
    have hd : doJSON r = Except.ok (r.status, some v) := by
      simp [doJSON, hv, Nat.not_le.mpr hlt]
    simp [finishOp, hd, hne]
  · intro hlt hnone
    have hd : doJSON r = Except.error (DoJSONError.decodeFailure r.status) := by
      simp [doJSON, hnone, Nat.not_le.mpr hlt]
    simp [finishOp, hd]

/-- Witness for the amended C6 at statuses 200, 404, 201 and 250. -/
theorem c6_status_amended_witness :
    finishOp "search" (0 : Nat) ⟨200, some 5⟩ = Except.ok 5 ∧
    finishOp "search" (0 : Nat) ⟨404, some 5⟩ =
      Except.error (OpError.statusError "search" 404) ∧
    finishOp "search" (0 : Nat) ⟨201, some 5⟩ =
      Except.error (OpError.statusError "search" 201) ∧
    finishOp "search" (0 : Nat) ⟨250, none⟩ =
      Except.error (OpError.decodeError 250) :=
  ⟨(c6_status_amended "search" 0 ⟨200, some 5⟩).1 rfl 5 rfl,
   ((c6_status_amended "search" 0 ⟨404, some 5⟩).2.1 (by decide)).1,
   (c6_status_amended "search" 0 ⟨201, some 5⟩).2.2.1 (by decide) (by decide) 5 rfl,
   (c6_status_amended "search" 0 ⟨250, none⟩).2.2.2 (by decide) rfl⟩

/-- `Config.Validate` never produces the base-URL error: its per-cluster
loop checks only name, addresses and version. -/
theorem validateClusters_no_invalidBaseURL (l : List (String × ClusterConfig))
    (name addr : String) :
    validateClusters l ≠ some (ConfigError.invalidBaseURL name addr) := by
  induction l with
  | nil => simp [validateClusters]
  | cons hd tl ih =>
    obtain ⟨n, cl⟩ := hd
    simp only [validateClusters]
    split_ifs with h1 h2 h3
    · simp
    · simp
    · simp
    · exact ih

/-- C8 counterexample: no Config makes `Validate` return `InvalidBaseURL` —
that check lives in `NewRegistryFromConfig`, not in `Validate`. -/
theorem c8_counterexample :
    ¬ ∃ (cfg : Config) (name addr : String),
      Validate cfg = some (ConfigError.invalidBaseURL name addr) := by
  rintro ⟨cfg, name, addr, h⟩
  unfold Validate at h
  split_ifs at h with h1 h2 h3
  · simp at h
  · simp at h
  · simp at h
  · exact validateClusters_no_invalidBaseURL _ _ _ h

/-- C8 (amended): `Validate` is pure and covers six variants, each reachable
by a minimal Config — empty clusters, empty default name, default not a
key, empty cluster name (carrying no key), empty addresses, invalid
version; the `InvalidBaseURL` variant is produced by the registry
construction (`NewRegistryFromConfig`) after `Validate` passes, for any
first address the URL parser rejects. -/
theorem c8_validate_amended :
    Validate ⟨"d", []⟩ = some ConfigError.emptyClusters ∧
    Validate ⟨"", [("a", ⟨"a", 8, ["http://x:9200"], "", ""⟩)]⟩ =
      some ConfigError.noDefaultCluster ∧
    Validate ⟨"b", [("a", ⟨"a", 8, ["http://x:9200"], "", ""⟩)]⟩ =
      some ConfigError.defaultClusterNotFound ∧
    Validate ⟨"a", [("", ⟨"", 8, ["http://x:9200"], "", ""⟩),
      ("a", ⟨"a", 8, ["http://x:9200"], "", ""⟩)]⟩ = some ConfigError.emptyClusterName ∧
    Validate ⟨"a", [("a", ⟨"a", 8, [], "", ""⟩)]⟩ = some (ConfigError.emptyAddresses "a") ∧
    Validate ⟨"a", [("a", ⟨"a", 7, ["http://x:9200"], "", ""⟩)]⟩ =
      some (ConfigError.invalidVersion "a" 7) ∧
    (∀ parseOK : String → Bool, parseOK "notaurl" = false →
      NewRegistryFromConfigCheck parseOK ⟨"a", [("a", ⟨"a", 8, ["notaurl"], "", ""⟩)]⟩ =
        some (ConfigError.invalidBaseURL "a" "notaurl")) := by
  refine ⟨rfl, rfl, rfl, rfl, rfl, rfl, ?_⟩
  intro parseOK h
  have h0 : NewRegistryFromConfigCheck parseOK ⟨"a", [("a", ⟨"a", 8, ["notaurl"], "", ""⟩)]⟩ =
      checkBaseURLs parseOK [("a", ⟨"a", 8, ["notaurl"], "", ""⟩)] := rfl
  rw [h0]
  simp [checkBaseURLs, h]

/-- Witness for the amended C8 with a parser that rejects everything. -/
theorem c8_validate_amended_witness :
    NewRegistryFromConfigCheck (fun _ => false)
        ⟨"a", [("a", ⟨"a", 8, ["notaurl"], "", ""⟩)]⟩ =
      some (ConfigError.invalidBaseURL "a" "notaurl") :=
  c8_validate_amended.2.2.2.2.2.2 (fun _ => false) rfl

/-- C10: with no configured prefix map, `NewResolver` installs exactly
`{product_tree ↦ products_}`, so the not-migrated fallback index name is
`products_<tenant>` for kind `product_tree` and `<kind>_<tenant>` for every
other kind. -/
theorem c10_default_prefix_map :
    resolverIndexPrefixMap none = [("product_tree", "products_")] ∧
    (∀ t : String, indexPrefixOf (resolverIndexPrefixMap none) "product_tree" ++ t =
      "products_" ++ t) ∧
    (∀ k t : String, k ≠ "product_tree" →
      indexPrefixOf (resolverIndexPrefixMap none) k ++ t = k ++ "_" ++ t) ∧
    (∀ (r : ResolverModel) (t : String), r.indexPrefixMap = resolverIndexPrefixMap none →
      t ≠ "" →
      Resolve r t "product_tree" none ⟨404, none⟩ =
        ⟨Except.ok (r.defaultClient, "products_" ++ t), none⟩) := by
  refine ⟨rfl, fun t => rfl, ?_, ?_⟩
  · intro k t hk
    have hget : alistGet (resolverIndexPrefixMap none) k = none := by
      simp [resolverIndexPrefixMap, defaultIndexPrefixMap, alistGet, Ne.symm hk]
    simp [indexPrefixOf, hget]
  · intro r t hmap ht
    have hres : Resolve r t "product_tree" none ⟨404, none⟩ =
        resolveViaSync r t "product_tree" ⟨404, none⟩ := by
      simp [Resolve, ht]
    rw [hres]
    have hfetch : fetchFromSync ⟨404, none⟩ = Except.ok none := rfl
    simp [resolveViaSync, hfetch, hmap]
    rfl

/-- Witness for C10 at kind `order` and a concrete resolver. -/
theorem c10_default_prefix_map_witness :
    indexPrefixOf (resolverIndexPrefixMap none) "order" ++ "t1" = "order" ++ "_" ++ "t1" ∧
    Resolve ⟨[("default", 3)], 3, resolverIndexPrefixMap none⟩ "t1" "product_tree"
        none ⟨404, none⟩ = ⟨Except.ok (3, "products_" ++ "t1"), none⟩ :=
  ⟨c10_default_prefix_map.2.2.1 "order" "t1" (by decide),
   c10_default_prefix_map.2.2.2 ⟨[("default", 3)], 3, resolverIndexPrefixMap none⟩ "t1"
     rfl (by decide)⟩

end Esclient
